import Mathlib

/-!
Verification of the window-visibility and menu-action decision core of the
Blackbox tray application (`src/apps/desktop/src-tauri/src/lib.rs`).

The embedded definitions mirror the Rust source: `WindowVisibility` with
`toggle` / `is_visible` / the `From<bool>` conversion, `WindowDimensions`
with `new` / `default_dimensions` / `is_valid`, `MenuAction` with
`from_id` / `should_exit` / `get_url`, `handle_tray_click`, and
`WindowAction.determine`.  Rust `f64` fields are modelled as `Rat`: the
source performs no floating-point arithmetic on them, only ordering
comparisons against zero.
-/

namespace Blackbox

-- Window configuration constants (module `config` in the source).
namespace config

def WINDOW_TITLE : String := "Blackbox"

def WINDOW_LABEL : String := "main"

def SETTINGS_LABEL : String := "settings"

def WINDOW_WIDTH : Rat := 400

def WINDOW_HEIGHT : Rat := 300

def SETTINGS_WIDTH : Rat := 480

def SETTINGS_HEIGHT : Rat := 400

def MENU_OPEN_ID : String := "open"

def MENU_FEEDBACK_ID : String := "feedback"

def MENU_MANUAL_ID : String := "manual"

def MENU_TROUBLESHOOTING_ID : String := "troubleshooting"

def MENU_SLACK_ID : String := "slack"

def MENU_TWITTER_ID : String := "twitter"

def MENU_YOUTUBE_ID : String := "youtube"

def MENU_ABOUT_ID : String := "about"

def MENU_UPDATES_ID : String := "updates"

def MENU_SETTINGS_ID : String := "settings"

def MENU_QUIT_ID : String := "quit"

def URL_FEEDBACK : String := "https://github.com/blackbox-dev/blackbox/issues/new"

def URL_MANUAL : String := "https://blackbox.dev/docs"

def URL_TROUBLESHOOTING : String := "https://blackbox.dev/docs/troubleshooting"

def URL_SLACK : String := "https://blackbox.dev/community"

def URL_TWITTER : String := "https://twitter.com/blackboxdev"

def URL_YOUTUBE : String := "https://youtube.com/@blackboxdev"

end config

/-- Represents the visibility state of a window. -/
inductive WindowVisibility where
  | Visible
  | Hidden
deriving DecidableEq, Repr

namespace WindowVisibility

/-- Returns the toggled visibility state. -/
def toggle : WindowVisibility → WindowVisibility
  | Visible => Hidden
  | Hidden => Visible

/-- Returns true if the window should be visible. -/
def is_visible : WindowVisibility → Bool
  | Visible => true
  | Hidden => false

/-- The `From<bool>` conversion: true maps to Visible, false to Hidden. -/
def fromBool (visible : Bool) : WindowVisibility :=
  if visible then Visible else Hidden

end WindowVisibility

/-- Window dimensions configuration (`f64` fields modelled as `Rat`). -/
structure WindowDimensions where
  width : Rat
  height : Rat
deriving DecidableEq, Repr

namespace WindowDimensions

/-- Creates new window dimensions; no validation, cannot fail. -/
def new (width height : Rat) : WindowDimensions :=
  { width := width, height := height }

/-- Returns the default window dimensions. -/
def default_dimensions : WindowDimensions :=
  new config.WINDOW_WIDTH config.WINDOW_HEIGHT

/-- Validates that dimensions are positive. -/
def is_valid (d : WindowDimensions) : Bool :=
  decide (d.width > 0) && decide (d.height > 0)

end WindowDimensions

/-- The `Default` trait instance returns `default_dimensions`. -/
instance : Inhabited WindowDimensions :=
  ⟨WindowDimensions.default_dimensions⟩

/-- Menu event handler result. -/
inductive MenuAction where
  | Open
  | Feedback
  | Manual
  | Troubleshooting
  | Slack
  | Twitter
  | YouTube
  | About
  | CheckUpdates
  | Settings
  | Quit
  | Unknown
deriving DecidableEq, Repr, Fintype

namespace MenuAction

/-- Parses a menu event ID into a MenuAction (total, exact match). -/
def from_id (id : String) : MenuAction :=
  if id = config.MENU_OPEN_ID then Open
  else if id = config.MENU_FEEDBACK_ID then Feedback
  else if id = config.MENU_MANUAL_ID then Manual
  else if id = config.MENU_TROUBLESHOOTING_ID then Troubleshooting
  else if id = config.MENU_SLACK_ID then Slack
  else if id = config.MENU_TWITTER_ID then Twitter
  else if id = config.MENU_YOUTUBE_ID then YouTube
  else if id = config.MENU_ABOUT_ID then About
  else if id = config.MENU_UPDATES_ID then CheckUpdates
  else if id = config.MENU_SETTINGS_ID then Settings
  else if id = config.MENU_QUIT_ID then Quit
  else Unknown

/-- Returns true if this action should exit the application. -/
def should_exit : MenuAction → Bool
  | Quit => true
  | _ => false

/-- Returns the URL to open for external link actions. -/
def get_url : MenuAction → Option String
  | Feedback => some config.URL_FEEDBACK
  | Manual => some config.URL_MANUAL
  | Troubleshooting => some config.URL_TROUBLESHOOTING
  | Slack => some config.URL_SLACK
  | Twitter => some config.URL_TWITTER
  | YouTube => some config.URL_YOUTUBE
  | _ => none

end MenuAction

/-- Handles the tray icon click event logic: returns the new visibility
state that should be applied. -/
def handle_tray_click (current_visibility : WindowVisibility) : WindowVisibility :=
  current_visibility.toggle

/-- Determines what action to take for a window. -/
inductive WindowAction where
  | Toggle (v : WindowVisibility)
  | Create
deriving DecidableEq, Repr

namespace WindowAction

/-- Determines the appropriate action based on window existence and visibility. -/
def determine (window_exists : Bool) (current_visibility : Option Bool) : WindowAction :=
  if window_exists then
    let visibility := (current_visibility.map WindowVisibility.fromBool).getD WindowVisibility.Hidden
    Toggle visibility.toggle
  else
    Create

end WindowAction

/-- Models Rust's `str::starts_with(pat)`: the pattern's character sequence
is a prefix of the string's character sequence. -/
def strStartsWith (s pre : String) : Bool :=
  pre.data.isPrefixOf s.data

/-- The list of the eleven fixed menu item ids. -/
def menuIdTable : List String :=
  [config.MENU_OPEN_ID, config.MENU_FEEDBACK_ID, config.MENU_MANUAL_ID,
   config.MENU_TROUBLESHOOTING_ID, config.MENU_SLACK_ID, config.MENU_TWITTER_ID,
   config.MENU_YOUTUBE_ID, config.MENU_ABOUT_ID, config.MENU_UPDATES_ID,
   config.MENU_SETTINGS_ID, config.MENU_QUIT_ID]

end Blackbox

namespace Blackbox

/-- C1: when a window exists, `determine` interprets the visibility hint
(`some true` means Visible, `some false` means Hidden, `none` defaults to
Hidden) and returns `Toggle` of the opposite state. -/
theorem determine_window_exists_spec :
    WindowAction.determine true (some true) = WindowAction.Toggle WindowVisibility.Hidden ∧
    WindowAction.determine true (some false) = WindowAction.Toggle WindowVisibility.Visible ∧
    WindowAction.determine true none = WindowAction.Toggle WindowVisibility.Visible := by
  refine ⟨rfl, rfl, rfl⟩

/-- C2: when no window exists, `determine` returns `Create` for every
visibility hint: existence dominates the hint. -/
theorem determine_no_window_creates (x : Option Bool) :
    WindowAction.determine false x = WindowAction.Create := rfl

/-- C3: `from_id` maps each of the eleven fixed ids to its corresponding
action by exact match, and every other string to `Unknown`. -/
theorem from_id_total_spec :
    (MenuAction.from_id ("open") = MenuAction.Open ∧
     MenuAction.from_id ("feedback") = MenuAction.Feedback ∧
     MenuAction.from_id ("manual") = MenuAction.Manual ∧
     MenuAction.from_id ("troubleshooting") = MenuAction.Troubleshooting ∧
     MenuAction.from_id ("slack") = MenuAction.Slack ∧
     MenuAction.from_id ("twitter") = MenuAction.Twitter ∧
     MenuAction.from_id ("youtube") = MenuAction.YouTube ∧
     MenuAction.from_id ("about") = MenuAction.About ∧
     MenuAction.from_id ("updates") = MenuAction.CheckUpdates ∧
     MenuAction.from_id ("settings") = MenuAction.Settings ∧
     MenuAction.from_id ("quit") = MenuAction.Quit) ∧
    ∀ s : String, s ∉ menuIdTable → MenuAction.from_id s = MenuAction.Unknown := by
  constructor
  · exact ⟨rfl, rfl, rfl, rfl, rfl, rfl, rfl, rfl, rfl, rfl, rfl⟩
  · intro s hs
    simp only [menuIdTable, List.mem_cons, List.not_mem_nil, or_false, not_or] at hs
    obtain ⟨h1, h2, h3, h4, h5, h6, h7, h8, h9, h10, h11⟩ := hs
    simp [MenuAction.from_id, h1, h2, h3, h4, h5, h6, h7, h8, h9, h10, h11]

/-- Witness for C3 at the concrete unmatched id string. -/
theorem from_id_total_spec_witness :
    ("nonsense" : String) ∉ menuIdTable ∧
    MenuAction.from_id ("nonsense") = MenuAction.Unknown :=
  ⟨by decide, from_id_total_spec.2 ("nonsense") (by decide)⟩

/-- C4: `get_url` returns `some` exactly for the six link actions, and every
URL it returns starts with the string `https://`. -/
theorem get_url_spec :
    (∀ a : MenuAction, a.get_url.isSome = true ↔
      (a = MenuAction.Feedback ∨ a = MenuAction.Manual ∨ a = MenuAction.Troubleshooting ∨
       a = MenuAction.Slack ∨ a = MenuAction.Twitter ∨ a = MenuAction.YouTube)) ∧
    ∀ a : MenuAction, ∀ u : String, a.get_url = some u → strStartsWith u ("https://") = true := by
  constructor
  · intro a
    cases a <;> simp [MenuAction.get_url]
  · intro a u h
    cases a <;> simp only [MenuAction.get_url, Option.some.injEq,
      reduceCtorEq] at h <;> exact h ▸ (by decide)

/-- Witness for C4 at the Feedback action. -/
theorem get_url_spec_witness :
    MenuAction.get_url MenuAction.Feedback =
      some ("https://github.com/blackbox-dev/blackbox/issues/new") ∧
    strStartsWith ("https://github.com/blackbox-dev/blackbox/issues/new") ("https://") = true :=
  ⟨rfl, get_url_spec.2 MenuAction.Feedback ("https://github.com/blackbox-dev/blackbox/issues/new") rfl⟩

/-- C5: `should_exit` is true exactly for `Quit`. -/
theorem should_exit_iff_quit (a : MenuAction) :
    a.should_exit = true ↔ a = MenuAction.Quit := by
  cases a <;> simp [MenuAction.should_exit]

/-- C6: `toggle` is an involution, with `toggle Visible = Hidden` and
`toggle Hidden = Visible`. -/
theorem toggle_involution (v : WindowVisibility) :
    v.toggle.toggle = v ∧
    WindowVisibility.toggle WindowVisibility.Visible = WindowVisibility.Hidden ∧
    WindowVisibility.toggle WindowVisibility.Hidden = WindowVisibility.Visible := by
  cases v <;> exact ⟨rfl, rfl, rfl⟩

/-- C7: converting a boolean to a visibility and back with `is_visible`
round-trips: true maps to Visible, false to Hidden. -/
theorem fromBool_is_visible_roundtrip (b : Bool) :
    (WindowVisibility.fromBool b).is_visible = b := by
  cases b <;> rfl

/-- C8: `new` always constructs with exactly the given fields, and
`is_valid` holds iff both dimensions are positive. -/
theorem new_is_valid_spec (w h : Rat) :
    (WindowDimensions.new w h).width = w ∧
    (WindowDimensions.new w h).height = h ∧
    ((WindowDimensions.new w h).is_valid = true ↔ (w > 0 ∧ h > 0)) := by
  refine ⟨rfl, rfl, ?_⟩
  simp [WindowDimensions.new, WindowDimensions.is_valid]

/-- C9: `default_dimensions` (and the `Default` instance) is 400 by 300 and
satisfies `is_valid`. -/
theorem default_dimensions_spec :
    WindowDimensions.default_dimensions.width = 400 ∧
    WindowDimensions.default_dimensions.height = 300 ∧
    WindowDimensions.default_dimensions.is_valid = true ∧
    (default : WindowDimensions) = WindowDimensions.default_dimensions := by
  refine ⟨rfl, rfl, by decide, rfl⟩

/-- C10: the tray-click helper and `determine` encode the same toggle
logic: `handle_tray_click v = v.toggle`, and `determine true (some
v.is_visible)` is `Toggle (handle_tray_click v)`. -/
theorem handle_tray_click_determine_agree (v : WindowVisibility) :
    handle_tray_click v = v.toggle ∧
    WindowAction.determine true (some v.is_visible) = WindowAction.Toggle (handle_tray_click v) := by
  cases v <;> exact ⟨rfl, rfl⟩

end Blackbox
